import Mathlib

/-!
Shallow embedding of the IOT-project control loop (src/main.py and
src/iot_integrations.py).  Times and sensor values are rationals; Python
dictionaries keyed by strings become functions `String → Option _`;
network and sensor effects are passed in as explicit oracle arguments.
-/

/-- Constant BEAKER_HEIGHT_CM from src/main.py. -/
def BEAKER_HEIGHT_CM : ℚ := 10

/-- Constant WATER_LOW_DISTANCE_CM from src/main.py. -/
def WATER_LOW_DISTANCE_CM : ℚ := 7

/-- Constant TEMP_MIN_C from src/main.py. -/
def TEMP_MIN_C : ℚ := -20

/-- Constant TEMP_MAX_C from src/main.py. -/
def TEMP_MAX_C : ℚ := 80

/-- Embedding of calc_water_height (src/main.py lines 168-170):
`h = BEAKER_HEIGHT_CM - distance_cm; return max(0.0, min(BEAKER_HEIGHT_CM, h))`. -/
def calc_water_height (distance_cm : ℚ) : ℚ :=
  max 0 (min BEAKER_HEIGHT_CM (BEAKER_HEIGHT_CM - distance_cm))

/-- The shared `readings` dictionary of src/main.py (lines 87-95).
Python stores 0/1 ints for soil_dry, pir_active and motor_on, so those are ℕ. -/
structure Readings where
  temp_c : Option ℚ
  humidity : Option ℚ
  distance_cm : Option ℚ
  water_height : Option ℚ
  soil_dry : Option ℕ
  pir_active : Option ℕ
  motor_on : ℕ
deriving DecidableEq, Repr

/-- The initial `readings` dict: all None except motor_on = 0. -/
def initialReadings : Readings :=
  ⟨none, none, none, none, none, none, 0⟩

/-- Embedding of motor_on (src/main.py lines 133-136): drives the GPIO pin high
(external effect, outside the model) and stores motor_on = 1. -/
def motor_on (r : Readings) : Readings := { r with motor_on := 1 }

/-- Embedding of motor_off (src/main.py lines 138-141): drives the GPIO pin low
and stores motor_on = 0. -/
def motor_off (r : Readings) : Readings := { r with motor_on := 0 }

/-- Embedding of moisture_is_dry (src/main.py lines 143-147): the GPIO pin
level is the oracle argument `dry`; the function stores soil_dry = 1/0 and
returns the boolean. -/
def moisture_is_dry (r : Readings) (dry : Bool) : Readings × Bool :=
  ({ r with soil_dry := some (if dry then 1 else 0) }, dry)

/-- Embedding of check_and_drive_motor (src/main.py lines 179-185): reads the
moisture pin (same pin level `dry` within one iteration) and switches the
motor accordingly. -/
def check_and_drive_motor (r : Readings) (dry : Bool) : Readings :=
  let p := moisture_is_dry r dry
  if p.2 then motor_on p.1 else motor_off p.1

/-- Pointwise update of a string-keyed map, as Python `d[k] = v`. -/
def updateMap {β : Type} (f : String → β) (k : String) (v : β) : String → β :=
  fun q => if q = k then v else f q

/-- The AlertGate dataclass of src/iot_integrations.py (lines 118-126).
`last_sent` and `last_state` are dicts (absent key = `none`); Python
`last_sent.get(key, 0)` is modelled by `(last_sent key).getD 0`.
The state type is a parameter (Python `Any`); all call sites pass bools. -/
structure AlertGate (α : Type) where
  cooldown_sec : ℚ
  last_sent : String → Option ℚ
  last_state : String → Option α

/-- Embedding of AlertGate.maybe_send (src/iot_integrations.py lines 128-135).
`now` is the wall clock, `sendOk` is the result of `self.tg.send(msg_on_change)`
when it is invoked.  Returns the updated gate and whether a send was attempted
(whether `tg.send` was called at all).  In the source:
changed = last_state.get(key) != state, recently = now - last_sent.get(key, 0)
< cooldown_sec; on `changed and not recently` it sends, records last_sent only
on success, and always records last_state (inside that branch). -/
def maybe_send {α : Type} [DecidableEq α] (g : AlertGate α) (now : ℚ)
    (key : String) (state : α) (sendOk : Bool) : AlertGate α × Bool :=
  if g.last_state key ≠ some state ∧
      ¬ (now - (g.last_sent key).getD 0 < g.cooldown_sec) then
    ({ cooldown_sec := g.cooldown_sec,
       last_sent := if sendOk then updateMap g.last_sent key (some now)
                    else g.last_sent,
       last_state := updateMap g.last_state key (some state) }, true)
  else (g, false)

/-- Fold of maybe_send over a sequence of calls for one fixed key, logging for
each call whether a send was attempted. -/
def runGate {α : Type} [DecidableEq α] (key : String) :
    AlertGate α → List (ℚ × α × Bool) → AlertGate α × List Bool
  | g, [] => (g, [])
  | g, c :: rest =>
    let p := maybe_send g c.1 key c.2.1 c.2.2
    let q := runGate key p.1 rest
    (q.1, p.2 :: q.2)

/-- The ThingSpeakClient dataclass (src/iot_integrations.py lines 14-18):
min_interval_sec defaults to 15, _last_push to 0.0. -/
structure ThingSpeakClient where
  min_interval_sec : ℚ
  last_push : ℚ
deriving DecidableEq, Repr

/-- Embedding of ThingSpeakClient.push (src/iot_integrations.py lines 20-52).
The HTTP outcome is the oracle `resp`: `none` models a requests.RequestException
raised by `requests.get`; `some (status, digits)` models a completed response
with the given status code and whether `r.text.strip().isdigit()`.  A call
faster than min_interval_sec returns False before any request; a completed
request sets `_last_push = now` and returns `status == 200 and digits`; an
exception returns False leaving `_last_push` unchanged. -/
def push (c : ThingSpeakClient) (now : ℚ) (resp : Option (ℕ × Bool)) :
    ThingSpeakClient × Bool :=
  if now - c.last_push < c.min_interval_sec then (c, false)
  else
    match resp with
    | none => (c, false)
    | some sd => ({ c with last_push := now }, (sd.1 == 200) && sd.2)

/-- Fold of push over a sequence of calls, logging each return value. -/
def runPush : ThingSpeakClient → List (ℚ × Option (ℕ × Bool)) →
    ThingSpeakClient × List Bool
  | c, [] => (c, [])
  | c, x :: rest =>
    let p := push c x.1 x.2
    let q := runPush p.1 rest
    (q.1, p.2 :: q.2)

/-- A fresh ThingSpeakClient as built in src/main.py line 107:
default min_interval_sec = 15 and _last_push = 0.0. -/
def tsInit : ThingSpeakClient := ⟨15, 0⟩

/-- The ultrasonic portion of one sensors_thread iteration (src/main.py lines
303-324 and 349-352).  `measured` is the outcome of
read_ultrasonic_distance_cm: `none` models the read raising an exception
(after which the source sets `distance = -1`), `some d` a returned value.
On `distance > 0` the water_low alert is considered with state
`distance > WATER_LOW_DISTANCE_CM`; then
`height = calc_water_height(distance if distance > 0 else BEAKER_HEIGHT_CM)`
and, unconditionally, `readings["distance_cm"] = distance if distance > 0 else
None` and `readings["water_height"] = height`.  Returns the updated readings,
the updated gate, and whether an alert send was attempted.  The separate
global `last_distance_cm` is not part of the shared readings dict and is not
modelled. -/
def ultrasonicStep (r : Readings) (g : AlertGate Bool) (now : ℚ)
    (measured : Option ℚ) (sendOk : Bool) : Readings × AlertGate Bool × Bool :=
  let distance : ℚ := measured.getD (-1)
  let p : AlertGate Bool × Bool :=
    if 0 < distance then
      if WATER_LOW_DISTANCE_CM < distance then
        maybe_send g now "water_low" true sendOk
      else
        maybe_send g now "water_low" false sendOk
    else (g, false)
  let height := calc_water_height (if 0 < distance then distance else BEAKER_HEIGHT_CM)
  ({ r with
      distance_cm := if 0 < distance then some distance else none,
      water_height := some height },
   p.1, p.2)

/-- The moisture/motor portion of one sensors_thread iteration (src/main.py
lines 326-331): `was_dry = moisture_is_dry(); check_and_drive_motor();
alerts.maybe_send("soil_dry", was_dry, ...)`.  The moisture pin level `dry`
is stable within the iteration (both reads see the same level).  Returns the
updated readings, the updated gate, and whether an alert send was attempted. -/
def moistureStep (r : Readings) (g : AlertGate Bool) (now : ℚ)
    (dry : Bool) (sendOk : Bool) : Readings × AlertGate Bool × Bool :=
  let p1 := moisture_is_dry r dry
  let r2 := check_and_drive_motor p1.1 dry
  let p := maybe_send g now "soil_dry" p1.2 sendOk
  (r2, p.1, p.2)

/-- The periodic DHT refresh of sensors_thread (src/main.py lines 336-347).
`reading` is the outcome of Adafruit_DHT.read_retry: `none` models the call
raising (after which the source sets both to None), `some (h, t)` the returned
pair whose components may themselves be None.  Only a non-None temperature
within [TEMP_MIN_C, TEMP_MAX_C] updates temp_c, and then a non-None humidity
updates humidity; otherwise the readings are left untouched. -/
def dhtStep (r : Readings) (reading : Option (Option ℚ × Option ℚ)) : Readings :=
  match (reading.getD (none, none)).2 with
  | none => r
  | some t =>
    if TEMP_MIN_C ≤ t ∧ t ≤ TEMP_MAX_C then
      match (reading.getD (none, none)).1 with
      | some h => { r with temp_c := some t, humidity := some h }
      | none => { r with temp_c := some t }
    else r

/-- Embedding of read_dht11_both (src/main.py lines 172-177): `raw` is the
(humidity, temperature) pair returned by Adafruit_DHT.read_retry; if the
temperature is None or outside [TEMP_MIN_C, TEMP_MAX_C] the function returns
(None, None), else (humidity, temperature). -/
def read_dht11_both (raw : Option ℚ × Option ℚ) : Option ℚ × Option ℚ :=
  match raw.2 with
  | none => (none, none)
  | some t =>
    if TEMP_MIN_C ≤ t ∧ t ≤ TEMP_MAX_C then (raw.1, some t) else (none, none)

/-- A fresh AlertGate over booleans with the default 60 s cooldown and empty
dicts, as built at src/main.py line 109. -/
def gateFresh : AlertGate Bool := ⟨60, fun _ => none, fun _ => none⟩

/-- A gate that successfully sent for key "k" at t = 50 with state false. -/
def gateBlocked : AlertGate Bool :=
  ⟨60, fun k => if k = "k" then some 50 else none,
      fun k => if k = "k" then some false else none⟩

/-- A gate that successfully sent "water_low" state true at t = 0. -/
def gateSent : AlertGate Bool :=
  ⟨60, fun k => if k = "water_low" then some 0 else none,
      fun k => if k = "water_low" then some true else none⟩

/-- A gate that successfully sent "soil_dry" state true at t = 100. -/
def gateSoil : AlertGate Bool :=
  ⟨60, fun k => if k = "soil_dry" then some 100 else none,
      fun k => if k = "soil_dry" then some true else none⟩

/-- A readings store holding a previously measured distance and water height. -/
def readingsPrior : Readings :=
  { initialReadings with distance_cm := some 8, water_height := some 2 }


/-- Helper: a maybe_send call that attempts a send records the passed state. -/
lemma maybe_send_attempted_last_state {α : Type} [DecidableEq α]
    (g : AlertGate α) (now : ℚ) (key : String) (s : α) (ok : Bool)
    (h : (maybe_send g now key s ok).2 = true) :
    (maybe_send g now key s ok).1.last_state key = some s := by
  by_cases hc : g.last_state key ≠ some s ∧
      ¬ (now - (g.last_sent key).getD 0 < g.cooldown_sec)
  · unfold maybe_send
    rw [if_pos hc]
    simp [updateMap]
  · unfold maybe_send at h
    rw [if_neg hc] at h
    cases h

/-- Helper: a maybe_send call that attempts no send leaves the gate unchanged. -/
lemma maybe_send_not_attempted {α : Type} [DecidableEq α]
    (g : AlertGate α) (now : ℚ) (key : String) (s : α) (ok : Bool)
    (h : (maybe_send g now key s ok).2 = false) :
    (maybe_send g now key s ok).1 = g := by
  by_cases hc : g.last_state key ≠ some s ∧
      ¬ (now - (g.last_sent key).getD 0 < g.cooldown_sec)
  · unfold maybe_send at h
    rw [if_pos hc] at h
    cases h
  · unfold maybe_send
    rw [if_neg hc]

/-- Helper: when the recorded state already equals the passed state,
maybe_send does nothing. -/
lemma maybe_send_unchanged_state {α : Type} [DecidableEq α]
    (g : AlertGate α) (now : ℚ) (key : String) (s : α) (ok : Bool)
    (h : g.last_state key = some s) :
    maybe_send g now key s ok = (g, false) := by
  unfold maybe_send
  rw [if_neg]
  rintro ⟨hch, -⟩
  exact hch h

/-- Helper: within cooldown of the recorded last successful send, maybe_send
does nothing. -/
lemma maybe_send_recent {α : Type} [DecidableEq α]
    (g : AlertGate α) (now t : ℚ) (key : String) (s : α) (ok : Bool)
    (hsent : g.last_sent key = some t) (hlt : now - t < g.cooldown_sec) :
    maybe_send g now key s ok = (g, false) := by
  unfold maybe_send
  rw [if_neg]
  rintro ⟨-, hrec⟩
  refine hrec ?_
  rw [hsent]
  simpa using hlt

/-- Helper: once cooldown has elapsed, a call whose state differs from the
recorded one attempts a send. -/
lemma maybe_send_after_cooldown {α : Type} [DecidableEq α]
    (g : AlertGate α) (now t : ℚ) (key : String) (s : α) (ok : Bool)
    (hsent : g.last_sent key = some t) (hcd : g.cooldown_sec ≤ now - t)
    (hch : g.last_state key ≠ some s) :
    (maybe_send g now key s ok).2 = true := by
  have hrec : ¬ (now - (g.last_sent key).getD 0 < g.cooldown_sec) := by
    rw [hsent]
    simpa using not_lt.mpr hcd
  unfold maybe_send
  rw [if_pos ⟨hch, hrec⟩]

/-- Helper: a whole run of calls inside the cooldown window attempts nothing
and leaves the gate unchanged. -/
lemma runGate_silent {α : Type} [DecidableEq α] (key : String) (t : ℚ)
    (g : AlertGate α) (hsent : g.last_sent key = some t)
    (calls : List (ℚ × α × Bool)) :
    (∀ c ∈ calls, c.1 - t < g.cooldown_sec) →
    (runGate key g calls).1 = g ∧ ∀ b ∈ (runGate key g calls).2, b = false := by
  induction calls with
  | nil => exact fun _ => ⟨rfl, by simp [runGate]⟩
  | cons c rest ih =>
    intro hcalls
    have hstep : maybe_send g c.1 key c.2.1 c.2.2 = (g, false) :=
      maybe_send_recent g c.1 t key c.2.1 c.2.2 hsent
        (hcalls c (List.mem_cons_self c rest))
    have ihr := ih (fun d hd => hcalls d (List.mem_cons_of_mem c hd))
    refine ⟨?_, ?_⟩
    · simp only [runGate, hstep]
      exact ihr.1
    · intro b hb
      simp only [runGate, hstep, List.mem_cons] at hb
      rcases hb with h | h
      · exact h
      · exact ihr.2 b h

/-- C7: for every distance d with 0 < d ≤ beaker height, the computed water
height equals beaker height − d; for every d above the beaker height it is 0;
and the result is always clamped into [0, beaker height]. -/
theorem calc_water_height_spec (d : ℚ) :
    (0 < d → d ≤ BEAKER_HEIGHT_CM → calc_water_height d = BEAKER_HEIGHT_CM - d)
    ∧ (BEAKER_HEIGHT_CM < d → calc_water_height d = 0)
    ∧ 0 ≤ calc_water_height d ∧ calc_water_height d ≤ BEAKER_HEIGHT_CM := by
  unfold calc_water_height BEAKER_HEIGHT_CM
  refine ⟨fun h1 h2 => ?_, fun h => ?_, ?_, ?_⟩
  · rw [min_eq_right (by linarith), max_eq_right (by linarith)]
  · rw [min_eq_right (by linarith), max_eq_left (by linarith)]
  · exact le_max_left 0 _
  · exact max_le (by norm_num) (min_le_left _ _)

/-- Witness for calc_water_height_spec at concrete distances 8 and 11. -/
theorem calc_water_height_spec_witness :
    calc_water_height 8 = BEAKER_HEIGHT_CM - 8 ∧ calc_water_height 11 = 0 :=
  ⟨(calc_water_height_spec 8).1 (by norm_num) (by norm_num [BEAKER_HEIGHT_CM]),
   (calc_water_height_spec 11).2.1 (by norm_num [BEAKER_HEIGHT_CM])⟩

/-- C9: the actuator set operation is idempotent and always records the
commanded motor state in the shared readings store. -/
theorem actuator_set_spec (r : Readings) :
    motor_on (motor_on r) = motor_on r ∧ (motor_on r).motor_on = 1
    ∧ motor_off (motor_off r) = motor_off r ∧ (motor_off r).motor_on = 0
    ∧ (motor_off (motor_on r)).motor_on = 0 :=
  ⟨rfl, rfl, rfl, rfl, rfl⟩

/-- Witness for actuator_set_spec at the initial readings store. -/
theorem actuator_set_spec_witness :
    motor_on (motor_on initialReadings) = motor_on initialReadings
    ∧ (motor_on initialReadings).motor_on = 1 :=
  ⟨(actuator_set_spec initialReadings).1, (actuator_set_spec initialReadings).2.1⟩

/-- C8: a failed temperature measurement, or one outside [−20, 80] °C, updates
neither the stored temperature nor the stored humidity — the periodic refresh
leaves the whole readings store untouched and read_dht11_both reports
(None, None). -/
theorem temp_validation_spec (r : Readings)
    (x : Option (Option ℚ × Option ℚ)) (raw : Option ℚ × Option ℚ)
    (hx : ∀ t, (x.getD (none, none)).2 = some t →
      ¬ (TEMP_MIN_C ≤ t ∧ t ≤ TEMP_MAX_C))
    (hraw : ∀ t, raw.2 = some t → ¬ (TEMP_MIN_C ≤ t ∧ t ≤ TEMP_MAX_C)) :
    dhtStep r x = r ∧ read_dht11_both raw = (none, none) := by
  constructor
  · unfold dhtStep
    cases hx2 : (x.getD (none, none)).2 with
    | none => rfl
    | some t => simp [hx t hx2]
  · unfold read_dht11_both
    cases hr2 : raw.2 with
    | none => rfl
    | some t => simp [hraw t hr2]

/-- Witness for temp_validation_spec: a reading of 100 °C (above the 80 °C
bound) leaves the initial store unchanged and read_dht11_both drops it. -/
theorem temp_validation_spec_witness :
    dhtStep initialReadings (some (some 50, some 100)) = initialReadings
    ∧ read_dht11_both (some 50, some 100) = (none, none) :=
  temp_validation_spec initialReadings (some (some 50, some 100)) (some 50, some 100)
    (by
      intro t ht
      simp only [Option.getD_some] at ht
      cases ht
      norm_num [TEMP_MIN_C, TEMP_MAX_C])
    (by
      intro t ht
      cases ht
      norm_num [TEMP_MIN_C, TEMP_MAX_C])

/-- C2: with the last successful send for a key recorded at time t, no further
notification for that key is attempted by any sequence of calls within
cooldown_sec of t, however often the state toggles; and once cooldown_sec has
elapsed, a single call whose state differs from last_state attempts a send
immediately. -/
theorem alert_cooldown_spec {α : Type} [DecidableEq α] (key : String)
    (g : AlertGate α) (t : ℚ) (hsent : g.last_sent key = some t) :
    (∀ calls : List (ℚ × α × Bool),
      (∀ c ∈ calls, c.1 - t < g.cooldown_sec) →
      ∀ b ∈ (runGate key g calls).2, b = false)
    ∧ (∀ (now : ℚ) (s : α) (ok : Bool), g.cooldown_sec ≤ now - t →
      g.last_state key ≠ some s → (maybe_send g now key s ok).2 = true) :=
  ⟨fun calls h => (runGate_silent key t g hsent calls h).2,
   fun now s ok hcd hch => maybe_send_after_cooldown g now t key s ok hsent hcd hch⟩

/-- Witness for alert_cooldown_spec: after a successful water_low send at
t = 0 with cooldown 60, three toggling calls at t = 10, 20, 30 all attempt
nothing, while a differing state at t = 60 attempts a send. -/
theorem alert_cooldown_spec_witness :
    (∀ b ∈ (runGate "water_low" gateSent
        [(10, false, true), (20, true, true), (30, false, false)]).2, b = false)
    ∧ (maybe_send gateSent 60 "water_low" false true).2 = true := by
  have hsent : gateSent.last_sent "water_low" = some 0 := by
    norm_num [gateSent]
  refine ⟨(alert_cooldown_spec "water_low" gateSent 0 hsent).1 _ ?_,
          (alert_cooldown_spec "water_low" gateSent 0 hsent).2 60 false true ?_ ?_⟩
  · intro c hc
    fin_cases hc <;> norm_num [gateSent]
  · norm_num [gateSent]
  · norm_num [gateSent]

/-- C3 counterexample: with the state for key "k" recorded as false and a
successful send 10 s ago (inside the 60 s cooldown), a call with state true
leaves last_state["k"] = false — it does NOT equal the state just passed in. -/
theorem last_state_not_always_updated :
    (maybe_send gateBlocked 60 "k" true true).1.last_state "k" = some false
    ∧ some false ≠ (some true : Option Bool) := by
  constructor
  · norm_num [maybe_send, gateBlocked]
  · simp

/-- C3 amended: after a call in which a send was attempted (state changed and
cooldown elapsed), last_state[key] equals the state just passed in regardless
of whether the send succeeded; after a call that attempted no send the whole
gate — in particular last_state — is unchanged, so a state change arriving
inside the cooldown window is not recorded. -/
theorem maybe_send_last_state_spec {α : Type} [DecidableEq α]
    (g : AlertGate α) (now : ℚ) (key : String) (s : α) (ok : Bool) :
    ((maybe_send g now key s ok).2 = true →
      (maybe_send g now key s ok).1.last_state key = some s)
    ∧ ((maybe_send g now key s ok).2 = false →
      (maybe_send g now key s ok).1 = g) :=
  ⟨maybe_send_attempted_last_state g now key s ok,
   maybe_send_not_attempted g now key s ok⟩

/-- Witness for maybe_send_last_state_spec: a fresh gate, state true at
t = 100 with a FAILING send, still records last_state = true. -/
theorem maybe_send_last_state_spec_witness :
    (maybe_send gateFresh 100 "k" true false).1.last_state "k" = some true :=
  (maybe_send_last_state_spec gateFresh 100 "k" true false).1
    (by simp [maybe_send, gateFresh]; norm_num)

/-- C5: two successive maybe_send calls with the same key and state attempt at
most one send in total, and whenever the first call attempted a send — whether
that send succeeded or failed — the second call attempts none. -/
theorem alert_no_double_send {α : Type} [DecidableEq α] (g : AlertGate α)
    (key : String) (s : α) (n1 n2 : ℚ) (ok1 ok2 : Bool) :
    ((maybe_send g n1 key s ok1).2 = true →
      (maybe_send (maybe_send g n1 key s ok1).1 n2 key s ok2).2 = false)
    ∧ ((maybe_send g n1 key s ok1).2 &&
        (maybe_send (maybe_send g n1 key s ok1).1 n2 key s ok2).2) = false := by
  have hfirst : (maybe_send g n1 key s ok1).2 = true →
      (maybe_send (maybe_send g n1 key s ok1).1 n2 key s ok2).2 = false := by
    intro h1
    rw [maybe_send_unchanged_state _ n2 key s ok2
      (maybe_send_attempted_last_state g n1 key s ok1 h1)]
  refine ⟨hfirst, ?_⟩
  cases h : (maybe_send g n1 key s ok1).2 with
  | false => rfl
  | true => rw [hfirst h, Bool.and_false]

/-- Witness for alert_no_double_send: a fresh gate, two calls with state true
at t = 100 (send succeeds) and t = 101: the second attempts nothing. -/
theorem alert_no_double_send_witness :
    (maybe_send (maybe_send gateFresh 100 "k" true true).1 101 "k" true true).2
      = false :=
  (alert_no_double_send gateFresh "k" true 100 101 true true).1
    (by simp [maybe_send, gateFresh]; norm_num)

/-- C1 counterexample: with stored distance 8 cm and water height 2 cm, one
iteration whose ultrasonic read fails (exception, so distance = -1) leaves
distance_cm = None and water_height = 0 in the store: the previous values are
NOT retained, refuting the claim that a failed read updates neither field. -/
theorem failed_read_overwrites_store :
    (ultrasonicStep readingsPrior gateFresh 0 none true).1.distance_cm = none
    ∧ (ultrasonicStep readingsPrior gateFresh 0 none true).1.water_height = some 0
    ∧ readingsPrior.distance_cm = some 8
    ∧ readingsPrior.water_height = some 2 := by
  refine ⟨?_, ?_, rfl, rfl⟩ <;>
    norm_num [ultrasonicStep, calc_water_height, BEAKER_HEIGHT_CM, readingsPrior]

/-- C1 amended: when the distance measurement fails or yields d ≤ 0, no
water_low alert is attempted and the alert gate is unchanged, but the stored
fields are overwritten rather than retained: distance_cm is cleared to None
and water_height is recomputed as calc_water_height(BEAKER_HEIGHT_CM) = 0;
the fields not written by this step (temperature, humidity, soil, presence,
motor) keep their previous values. -/
theorem ultrasonic_failed_read_spec (r : Readings) (g : AlertGate Bool)
    (now : ℚ) (measured : Option ℚ) (ok : Bool)
    (h : measured.getD (-1) ≤ 0) :
    (ultrasonicStep r g now measured ok).2.2 = false
    ∧ (ultrasonicStep r g now measured ok).2.1 = g
    ∧ (ultrasonicStep r g now measured ok).1.distance_cm = none
    ∧ (ultrasonicStep r g now measured ok).1.water_height = some 0
    ∧ (ultrasonicStep r g now measured ok).1.temp_c = r.temp_c
    ∧ (ultrasonicStep r g now measured ok).1.humidity = r.humidity
    ∧ (ultrasonicStep r g now measured ok).1.soil_dry = r.soil_dry
    ∧ (ultrasonicStep r g now measured ok).1.motor_on = r.motor_on := by
  have hnot : ¬ (0 < measured.getD (-1)) := not_lt.mpr h
  have hbk : calc_water_height BEAKER_HEIGHT_CM = 0 := by
    norm_num [calc_water_height, BEAKER_HEIGHT_CM]
  refine ⟨?_, ?_, ?_, ?_, ?_, ?_, ?_, ?_⟩ <;>
    simp [ultrasonicStep, hnot, hbk]

/-- Witness for ultrasonic_failed_read_spec: a failed read over the initial
store attempts no alert and stores water_height = 0. -/
theorem ultrasonic_failed_read_spec_witness :
    (ultrasonicStep initialReadings gateFresh 0 none true).2.2 = false
    ∧ (ultrasonicStep initialReadings gateFresh 0 none true).1.water_height
      = some 0 :=
  ⟨(ultrasonic_failed_read_spec initialReadings gateFresh 0 none true
      (by norm_num)).1,
   (ultrasonic_failed_read_spec initialReadings gateFresh 0 none true
      (by norm_num)).2.2.2.1⟩

/-- C4 counterexample: the soil_dry alert for state true was successfully sent
at t = 100 with cooldown 60; when the moisture flips to dry = false at
t = 130 the motor is commanded off, but NO new notification is attempted —
the cooldown is not irrelevant to a state change, refuting the claim. -/
theorem soil_flip_within_cooldown_no_send :
    (moistureStep initialReadings gateSoil 130 false true).1.motor_on = 0
    ∧ (moistureStep initialReadings gateSoil 130 false true).2.2 = false
    ∧ gateSoil.last_state "soil_dry" = some true := by
  refine ⟨rfl, ?_, by norm_num [gateSoil]⟩
  norm_num [moistureStep, maybe_send, gateSoil]

/-- C4 amended: when the moisture reading flips to dry = false the actuator is
commanded off and soil_dry = 0 is stored, and a new soil_dry notification is
attempted if and only if the recorded state differs from false AND the
cooldown since the last successful soil_dry send has elapsed — a flip inside
the cooldown window sends nothing. -/
theorem soil_flip_spec (r : Readings) (g : AlertGate Bool) (now : ℚ)
    (ok : Bool) :
    (moistureStep r g now false ok).1.motor_on = 0
    ∧ (moistureStep r g now false ok).1.soil_dry = some 0
    ∧ ((moistureStep r g now false ok).2.2 = true ↔
        (g.last_state "soil_dry" ≠ some false ∧
         ¬ (now - (g.last_sent "soil_dry").getD 0 < g.cooldown_sec))) := by
  refine ⟨rfl, rfl, ?_⟩
  by_cases hc : g.last_state "soil_dry" ≠ some false ∧
      ¬ (now - (g.last_sent "soil_dry").getD 0 < g.cooldown_sec)
  · simp only [moistureStep, moisture_is_dry, maybe_send, if_pos hc]
    simpa using hc
  · simp only [moistureStep, moisture_is_dry, maybe_send, if_neg hc]
    simpa using hc

/-- Witness for soil_flip_spec: over a fresh gate at t = 130 the flip to moist
turns the motor off and does attempt a notification (state unknown, no prior
send). -/
theorem soil_flip_spec_witness :
    (moistureStep initialReadings gateFresh 130 false true).1.motor_on = 0
    ∧ (moistureStep initialReadings gateFresh 130 false true).2.2 = true :=
  ⟨(soil_flip_spec initialReadings gateFresh 130 true).1,
   (soil_flip_spec initialReadings gateFresh 130 true).2.2.mpr
     ⟨by simp [gateFresh], by norm_num [gateFresh]⟩⟩

/-- Helper: a rate-limited push returns False and changes nothing, before any
request is made (so no exception can occur on that path). -/
lemma push_rate_limited (c : ThingSpeakClient) (now : ℚ)
    (resp : Option (ℕ × Bool)) (h : now - c.last_push < c.min_interval_sec) :
    push c now resp = (c, false) := by
  unfold push
  rw [if_pos h]

/-- Helper: a push that passes the rate gate and completes advances the
timestamp to now and reports the HTTP success condition. -/
lemma push_gate_passed (c : ThingSpeakClient) (now : ℚ) (sd : ℕ × Bool)
    (h : ¬ (now - c.last_push < c.min_interval_sec)) :
    push c now (some sd) = ({ c with last_push := now }, (sd.1 == 200) && sd.2) := by
  unfold push
  rw [if_neg h]

/-- Helper: push never changes min_interval_sec. -/
lemma push_min_interval_eq (c : ThingSpeakClient) (now : ℚ)
    (resp : Option (ℕ × Bool)) :
    (push c now resp).1.min_interval_sec = c.min_interval_sec := by
  cases resp with
  | none => unfold push; split <;> rfl
  | some sd => unfold push; split <;> rfl

/-- Helper: a run of pushes never changes min_interval_sec. -/
lemma runPush_min_interval_eq (calls : List (ℚ × Option (ℕ × Bool))) :
    ∀ c : ThingSpeakClient,
      (runPush c calls).1.min_interval_sec = c.min_interval_sec := by
  induction calls with
  | nil => intro c; rfl
  | cons x rest ih =>
    intro c
    simp only [runPush]
    rw [ih, push_min_interval_eq]

/-- Helper: with a nonnegative minimum interval, the rate-limit timestamp
never decreases across a push. -/
lemma push_last_push_mono (c : ThingSpeakClient) (now : ℚ)
    (resp : Option (ℕ × Bool)) (hmin : 0 ≤ c.min_interval_sec) :
    c.last_push ≤ (push c now resp).1.last_push := by
  unfold push
  split
  · exact le_refl _
  next hgate =>
    cases resp with
    | none => exact le_refl _
    | some sd =>
      have := not_lt.mp hgate
      simp only
      linarith

/-- Helper: with a nonnegative minimum interval, the rate-limit timestamp
never decreases across a whole run of pushes. -/
lemma runPush_last_push_mono (calls : List (ℚ × Option (ℕ × Bool))) :
    ∀ c : ThingSpeakClient, 0 ≤ c.min_interval_sec →
      c.last_push ≤ (runPush c calls).1.last_push := by
  induction calls with
  | nil => intro c _; exact le_refl _
  | cons x rest ih =>
    intro c hmin
    simp only [runPush]
    refine le_trans (push_last_push_mono c x.1 x.2 hmin) (ih _ ?_)
    rw [push_min_interval_eq]
    exact hmin

/-- C6: the telemetry sink never accepts two completed pushes less than
min_interval_sec apart — if a push at t₁ passes the rate gate and completes,
then however many calls (completing or raising) follow, any later push at t₂
that passes the gate satisfies t₂ − t₁ ≥ min_interval_sec; a call inside the
minimum interval returns False without touching the client (dropped, never an
error); and the concrete schedule t = 100, 105, 110, 116 with min_interval 15
on a fresh client accepts exactly the first and last calls. -/
theorem thingspeak_min_interval_spec (c : ThingSpeakClient) (t₁ t₂ : ℚ)
    (sd : ℕ × Bool) (mid : List (ℚ × Option (ℕ × Bool))) :
    (0 ≤ c.min_interval_sec →
      ¬ (t₁ - c.last_push < c.min_interval_sec) →
      ¬ (t₂ - (runPush (push c t₁ (some sd)).1 mid).1.last_push <
          (runPush (push c t₁ (some sd)).1 mid).1.min_interval_sec) →
      c.min_interval_sec ≤ t₂ - t₁)
    ∧ (∀ (now : ℚ) (resp : Option (ℕ × Bool)),
        now - c.last_push < c.min_interval_sec → push c now resp = (c, false))
    ∧ (runPush tsInit [(100, some (200, true)), (105, some (200, true)),
        (110, some (200, true)), (116, some (200, true))]).2
      = [true, false, false, true] := by
  refine ⟨?_, fun now resp h => push_rate_limited c now resp h, ?_⟩
  · intro hmin h1 h2
    rw [push_gate_passed c t₁ sd h1] at h2
    have hmineq : (runPush { c with last_push := t₁ } mid).1.min_interval_sec
        = c.min_interval_sec := runPush_min_interval_eq mid _
    have hmono : t₁ ≤ (runPush { c with last_push := t₁ } mid).1.last_push :=
      runPush_last_push_mono mid { c with last_push := t₁ } hmin
    rw [hmineq] at h2
    have := not_lt.mp h2
    linarith
  · norm_num [runPush, push, tsInit]

/-- Witness for thingspeak_min_interval_spec: on a fresh client with
min_interval 15, a completed push at t = 100 followed by rate-limited calls at
105 and 110 forces the accepted push at t = 116 to be at least 15 s after the
first; and a call at t = 5 is dropped with False. -/
theorem thingspeak_min_interval_spec_witness :
    tsInit.min_interval_sec ≤ (116 : ℚ) - 100
    ∧ push tsInit 5 (some (200, true)) = (tsInit, false) :=
  ⟨(thingspeak_min_interval_spec tsInit 100 116 (200, true)
      [(105, some (200, true)), (110, some (200, true))]).1
      (by norm_num [tsInit]) (by norm_num [tsInit])
      (by norm_num [runPush, push, tsInit]),
   (thingspeak_min_interval_spec tsInit 100 116 (200, true) []).2.1
      5 (some (200, true)) (by norm_num [tsInit])⟩

/-- C10: a push that passes the rate gate and whose HTTP request completes
advances _last_push to now even when the response is non-success (the call
then returns the success condition of the response, False for non-200), and
any call within min_interval_sec afterwards is suppressed; a push whose
request raises a network exception returns False and leaves the client — in
particular the rate-limit timestamp — unchanged. -/
theorem push_timestamp_spec (c : ThingSpeakClient) (now t₂ : ℚ)
    (sd : ℕ × Bool) (resp₂ : Option (ℕ × Bool)) :
    (¬ (now - c.last_push < c.min_interval_sec) →
      (push c now (some sd)).1.last_push = now
      ∧ (push c now (some sd)).2 = ((sd.1 == 200) && sd.2)
      ∧ (t₂ - now < c.min_interval_sec →
          push (push c now (some sd)).1 t₂ resp₂
            = ((push c now (some sd)).1, false)))
    ∧ (push c now none).1 = c ∧ (push c now none).2 = false := by
  refine ⟨?_, ?_, ?_⟩
  · intro h
    rw [push_gate_passed c now sd h]
    refine ⟨rfl, rfl, fun h2 => ?_⟩
    exact push_rate_limited _ t₂ resp₂ h2
  · unfold push; split <;> rfl
  · unfold push; split <;> rfl

/-- Witness for push_timestamp_spec: on a fresh client a completed push at
t = 100 with HTTP status 404 still advances the timestamp to 100 and returns
False, and the rejected call at t = 110 is suppressed; an exception at t = 100
leaves the client unchanged. -/
theorem push_timestamp_spec_witness :
    (push tsInit 100 (some (404, true))).1.last_push = 100
    ∧ (push tsInit 100 (some (404, true))).2 = false
    ∧ (push tsInit 100 none).1 = tsInit := by
  have h := push_timestamp_spec tsInit 100 110 (404, true) none
  have hp := h.1 (by norm_num [tsInit])
  exact ⟨hp.1, by rw [hp.2.1]; rfl, h.2.1⟩
